import Mathlib

/-!
Verification of the Black Friday deal application: deal lifecycle, PayFast
signature codec, ITN (instant transaction notification) verification and the
notify / pay / deal HTTP route handlers, shallowly embedded from the
TypeScript source.
-/

set_option autoImplicit false
set_option maxRecDepth 200000
set_option maxHeartbeats 1000000

namespace BF

/-! ## Character / byte helpers for the PHP-style URL encoding

The source encodes field values with the JavaScript function
encodeURIComponent (uppercase percent escapes over UTF-8 bytes, with the
unreserved set A-Z a-z 0-9 - _ . ! ~ * quote ( ) left intact) and then
replaces every occurrence of the three-character substring percent-two-zero
by a plus sign. -/

/-- Uppercase hexadecimal digit for a value below 16. -/
def hexDigitUpper (n : Nat) : Char :=
  if n < 10 then Char.ofNat (48 + n) else Char.ofNat (55 + n)

/-- Lowercase hexadecimal digit for a value below 16. -/
def hexDigitLower (n : Nat) : Char :=
  if n < 10 then Char.ofNat (48 + n) else Char.ofNat (87 + n)

/-- UTF-8 bytes of a single character, as natural numbers below 256. -/
def utf8Char (c : Char) : List Nat :=
  let n := c.toNat
  if n < 128 then [n]
  else if n < 2048 then [192 + n / 64, 128 + n % 64]
  else if n < 65536 then [224 + n / 4096, 128 + (n / 64) % 64, 128 + n % 64]
  else [240 + n / 262144, 128 + (n / 4096) % 64, 128 + (n / 64) % 64, 128 + n % 64]

/-- UTF-8 bytes of a string. -/
def utf8Bytes (s : String) : List Nat := s.data.flatMap utf8Char

/-- Characters left unescaped by the JavaScript encodeURIComponent. -/
def uriUnreserved (c : Char) : Bool :=
  c.isAlphanum || c = '-' || c = '_' || c = '.' || c = '!' || c = '~' ||
    c = '*' || c = Char.ofNat 39 || c = '(' || c = ')'

/-- Percent escape of one byte, uppercase hex, as produced by
encodeURIComponent. -/
def percentByte (b : Nat) : List Char :=
  ['%', hexDigitUpper (b / 16), hexDigitUpper (b % 16)]

/-- Whether a byte stands for an unreserved ASCII character. -/
def byteUnreserved (b : Nat) : Bool :=
  b < 128 && uriUnreserved (Char.ofNat b)

/-- Encoding of one UTF-8 byte under encodeURIComponent. -/
def encByte (b : Nat) : List Char :=
  if byteUnreserved b then [Char.ofNat b] else percentByte b

/-- JavaScript encodeURIComponent: every UTF-8 byte of the input is either an
unreserved ASCII character kept verbatim or percent escaped in uppercase hex. -/
def encodeURIComponent (s : String) : String :=
  ⟨(utf8Bytes s).flatMap encByte⟩

/-- Global replacement of the substring percent-two-zero by a plus sign,
scanning left to right, as the JavaScript regex replace in the source does. -/
def replacePct20 : List Char → List Char
  | '%' :: '2' :: '0' :: rest => '+' :: replacePct20 rest
  | c :: rest => c :: replacePct20 rest
  | [] => []

/-- The function phpUrlEncode from the PayFast module: encodeURIComponent of
the value, with every percent-two-zero escape then replaced by a plus. -/
def phpUrlEncode (s : String) : String :=
  ⟨replacePct20 (encodeURIComponent s).data⟩

/-- Per-character description of phpUrlEncode: a space becomes a plus, every
other character keeps its encodeURIComponent encoding. -/
def phpEncodeChar (c : Char) : List Char :=
  if c = ' ' then ['+'] else (utf8Char c).flatMap encByte

/-- Per-byte description of phpUrlEncode: the space byte becomes a plus,
every other byte keeps its encodeURIComponent encoding. -/
def phpEncByte (b : Nat) : List Char :=
  if b = 32 then ['+'] else encByte b

/-! ## MD5

The source hashes the signature base string with Node crypto MD5 and renders
the digest as lowercase hex. We embed MD5 (RFC 1321) over byte lists, with
32-bit words as naturals reduced modulo 2 to the 32. -/

/-- Per-round sine-derived constants of MD5 (RFC 1321). -/
def md5K : List Nat :=
  [0xd76aa478, 0xe8c7b756, 0x242070db, 0xc1bdceee,
   0xf57c0faf, 0x4787c62a, 0xa8304613, 0xfd469501,
   0x698098d8, 0x8b44f7af, 0xffff5bb1, 0x895cd7be,
   0x6b901122, 0xfd987193, 0xa679438e, 0x49b40821,
   0xf61e2562, 0xc040b340, 0x265e5a51, 0xe9b6c7aa,
   0xd62f105d, 0x02441453, 0xd8a1e681, 0xe7d3fbc8,
   0x21e1cde6, 0xc33707d6, 0xf4d50d87, 0x455a14ed,
   0xa9e3e905, 0xfcefa3f8, 0x676f02d9, 0x8d2a4c8a,
   0xfffa3942, 0x8771f681, 0x6d9d6122, 0xfde5380c,
   0xa4beea44, 0x4bdecfa9, 0xf6bb4b60, 0xbebfbc70,
   0x289b7ec6, 0xeaa127fa, 0xd4ef3085, 0x04881d05,
   0xd9d4d039, 0xe6db99e5, 0x1fa27cf8, 0xc4ac5665,
   0xf4292244, 0x432aff97, 0xab9423a7, 0xfc93a039,
   0x655b59c3, 0x8f0ccc92, 0xffeff47d, 0x85845dd1,
   0x6fa87e4f, 0xfe2ce6e0, 0xa3014314, 0x4e0811a1,
   0xf7537e82, 0xbd3af235, 0x2ad7d2bb, 0xeb86d391]

/-- Per-round left-rotation amounts of MD5. -/
def md5S : List Nat :=
  [7, 12, 17, 22, 7, 12, 17, 22, 7, 12, 17, 22, 7, 12, 17, 22,
   5, 9, 14, 20, 5, 9, 14, 20, 5, 9, 14, 20, 5, 9, 14, 20,
   4, 11, 16, 23, 4, 11, 16, 23, 4, 11, 16, 23, 4, 11, 16, 23,
   6, 10, 15, 21, 6, 10, 15, 21, 6, 10, 15, 21, 6, 10, 15, 21]

/-- 32-bit mask. -/
def mask32 : Nat := 4294967295

/-- Bitwise combination of the low k bits of two naturals, one bit at a time;
the bit function returns 0 or 1. Structural recursion so that the kernel can
evaluate it. -/
def natBitop (f : Nat → Nat → Nat) : Nat → Nat → Nat → Nat
  | 0, _, _ => 0
  | k + 1, x, y => f (x % 2) (y % 2) + 2 * natBitop f k (x / 2) (y / 2)

/-- 32-bit bitwise and. -/
def and32 (x y : Nat) : Nat := natBitop (fun a b => a * b) 32 x y

/-- 32-bit bitwise or. -/
def or32 (x y : Nat) : Nat := natBitop (fun a b => a + b - a * b) 32 x y

/-- 32-bit bitwise xor. -/
def xor32 (x y : Nat) : Nat := natBitop (fun a b => (a + b) % 2) 32 x y

/-- 32-bit bitwise complement: for x below 2 to the 32 this is exactly
mask32 minus x. -/
def not32 (x : Nat) : Nat := mask32 - x % 2 ^ 32

/-- Left rotation of a 32-bit word. -/
def rotl32 (x n : Nat) : Nat :=
  (x * 2 ^ n + x / 2 ^ (32 - n)) % 2 ^ 32

/-- MD5 padding: append the 0x80 byte, zero bytes up to 56 mod 64, then the
bit length as a 64-bit little-endian quantity. -/
def md5Pad (msg : List Nat) : List Nat :=
  let len := msg.length
  let padZeros := (119 - len % 64) % 64
  msg ++ 128 :: List.replicate padZeros 0 ++
    (List.range 8).map (fun i => len * 8 / 2 ^ (8 * i) % 256)

/-- Split a byte list into 64-byte blocks; the fuel argument bounds the
number of blocks and is instantiated with the list length. -/
def md5ChunksAux : Nat → List Nat → List (List Nat)
  | 0, _ => []
  | _, [] => []
  | fuel + 1, l => l.take 64 :: md5ChunksAux fuel (l.drop 64)

/-- Split a byte list into 64-byte blocks. -/
def md5Chunks (l : List Nat) : List (List Nat) :=
  md5ChunksAux l.length l

/-- Little-endian 32-bit words of one 64-byte block. -/
def md5Words (block : List Nat) : List Nat :=
  (List.range 16).map (fun j =>
    block.getD (4 * j) 0 + block.getD (4 * j + 1) 0 * 256 +
      block.getD (4 * j + 2) 0 * 65536 + block.getD (4 * j + 3) 0 * 16777216)

/-- Round function and message index of MD5 step i. -/
def md5Mix (i b c d : Nat) : Nat × Nat :=
  if i < 16 then (or32 (and32 b c) (and32 (not32 b) d), i)
  else if i < 32 then (or32 (and32 d b) (and32 (not32 d) c), (5 * i + 1) % 16)
  else if i < 48 then (xor32 b (xor32 c d), (3 * i + 5) % 16)
  else (xor32 c (or32 b (not32 d)), (7 * i) % 16)

/-- One of the 64 MD5 steps on the state (a, b, c, d). -/
def md5Step (M : List Nat) (st : Nat × Nat × Nat × Nat) (i : Nat) :
    Nat × Nat × Nat × Nat :=
  let a := st.1
  let b := st.2.1
  let c := st.2.2.1
  let d := st.2.2.2
  let fg := md5Mix i b c d
  let f := (fg.1 + a + md5K.getD i 0 + M.getD fg.2 0) % 2 ^ 32
  (d, (b + rotl32 f (md5S.getD i 0)) % 2 ^ 32, b, c)

/-- Process one 64-byte block into the running state. -/
def md5Block (st : Nat × Nat × Nat × Nat) (block : List Nat) :
    Nat × Nat × Nat × Nat :=
  let M := md5Words block
  let r := (List.range 64).foldl (md5Step M) st
  ((st.1 + r.1) % 2 ^ 32, (st.2.1 + r.2.1) % 2 ^ 32,
   (st.2.2.1 + r.2.2.1) % 2 ^ 32, (st.2.2.2 + r.2.2.2) % 2 ^ 32)

/-- MD5 digest of a byte list, as the 16 digest bytes. -/
def md5Digest (msg : List Nat) : List Nat :=
  let st := (md5Chunks (md5Pad msg)).foldl md5Block
    (0x67452301, 0xefcdab89, 0x98badcfe, 0x10325476)
  [st.1, st.2.1, st.2.2.1, st.2.2.2].flatMap (fun w =>
    [w % 256, w / 256 % 256, w / 65536 % 256, w / 16777216 % 256])

/-- Lowercase hex of one byte. -/
def byteHexLower (b : Nat) : List Char :=
  [hexDigitLower (b / 16), hexDigitLower (b % 16)]

/-- MD5 of the UTF-8 bytes of a string, rendered as lowercase hex, matching
Node crypto createHash md5 update digest hex. -/
def md5HexOfString (s : String) : String :=
  ⟨(md5Digest (utf8Bytes s)).flatMap byteHexLower⟩

/-! ## PayFast signature codec (lib/payfast.ts) -/

/-- The fixed, externally dictated field order from the PayFast module. -/
def PAYFAST_FIELD_ORDER : List String :=
  ["merchant_id", "merchant_key", "return_url", "cancel_url", "notify_url",
   "notify_method", "name_first", "name_last", "email_address", "cell_number",
   "m_payment_id", "amount", "item_name", "item_description",
   "custom_int1", "custom_int2", "custom_int3", "custom_int4", "custom_int5",
   "custom_str1", "custom_str2", "custom_str3", "custom_str4", "custom_str5",
   "email_confirmation", "confirmation_address", "currency", "payment_method",
   "subscription_type", "passphrase", "billing_date", "recurring_amount",
   "frequency", "cycles", "subscription_notify_email",
   "subscription_notify_webhook", "subscription_notify_buyer"]

/-- PayFast gateway source addresses accepted by the ITN origin check. -/
def PAYFAST_IPS : List String :=
  ["197.97.145.144", "197.97.145.145", "197.97.145.146", "197.97.145.147",
   "41.74.179.192", "41.74.179.193", "41.74.179.194", "41.74.179.195",
   "197.97.145.35", "197.97.145.36"]

/-- Whitespace for the JavaScript string trim (tab through carriage return,
and space). -/
def jsWhitespace (c : Char) : Bool :=
  (9 ≤ c.toNat ∧ c.toNat ≤ 13) ∨ c.toNat = 32

/-- JavaScript String.prototype.trim: drop leading and trailing whitespace. -/
def jsTrim (s : String) : String :=
  ⟨(((s.data.dropWhile jsWhitespace).reverse.dropWhile jsWhitespace).reverse)⟩

/-- Input mappings (JavaScript objects with string values) are embedded as
association lists looked up by key; an absent key models an undefined field. -/
def lookupField (data : List (String × String)) (k : String) : Option String :=
  data.lookup k

/-- Delete of an object property, modelling the delete of the signature field
in verifyITN. -/
def removeKey (k : String) (data : List (String × String)) :
    List (String × String) :=
  data.filter (fun kv => kv.1 ≠ k)

/-- The parameter string loop of generateSignature: for each field of
PAYFAST_FIELD_ORDER except the passphrase entry, if the input has a defined,
non-empty value for it, append name, equals sign, encoded trimmed value and a
trailing ampersand; then, if the passphrase is truthy and trims non-empty,
append it the same way. -/
def pfOutput (data : List (String × String)) (passphrase : String) : String :=
  let fieldPart := PAYFAST_FIELD_ORDER.foldl (fun acc field =>
    if field = "passphrase" then acc
    else
      match lookupField data field with
      | some v => if v = "" then acc
          else acc ++ field ++ "=" ++ phpUrlEncode (jsTrim v) ++ "&"
      | none => acc) ""
  if passphrase ≠ "" ∧ jsTrim passphrase ≠ "" then
    fieldPart ++ "passphrase=" ++ phpUrlEncode (jsTrim passphrase) ++ "&"
  else fieldPart

/-- JavaScript slice of a string from 0 to -1: drop the final character. -/
def jsDropLast (s : String) : String := ⟨s.data.dropLast⟩

/-- The signature base string: the parameter string with the trailing
ampersand removed. -/
def getString (data : List (String × String)) (passphrase : String) : String :=
  jsDropLast (pfOutput data passphrase)

/-- generateSignature from the PayFast module: MD5 of the base string,
lowercase hex. -/
def generateSignature (data : List (String × String)) (passphrase : String) :
    String :=
  md5HexOfString (getString data passphrase)

/-! Declarative description of the base string, used to state claim C5:
entries in the fixed field order, recognized fields only, empty and absent
values skipped, passphrase appended last when non-trivial. -/

/-- Entries contributed by the recognized fields, in fixed field order. -/
def fieldEntries (data : List (String × String)) : List String :=
  (PAYFAST_FIELD_ORDER.filter (fun f => f ≠ "passphrase")).filterMap
    (fun field =>
      match lookupField data field with
      | some v => if v = "" then none
          else some (field ++ "=" ++ phpUrlEncode (jsTrim v))
      | none => none)

/-- All entries of the base string, with the passphrase entry last. -/
def signatureEntries (data : List (String × String)) (passphrase : String) :
    List String :=
  fieldEntries data ++
    (if passphrase ≠ "" ∧ jsTrim passphrase ≠ "" then
      ["passphrase=" ++ phpUrlEncode (jsTrim passphrase)]
    else [])

/-- Join a list of entries with ampersands. -/
def joinAmp : List String → String
  | [] => ""
  | [e] => e
  | e :: rest => e ++ "&" ++ joinAmp rest

/-- The entry a single recognized field contributes to the base string, if
any: nothing for the reserved passphrase slot, nothing for an absent or
empty value, otherwise name equals encoded trimmed value. -/
def entryOf (data : List (String × String)) (field : String) : Option String :=
  if field = "passphrase" then none
  else
    match lookupField data field with
    | some v => if v = "" then none
        else some (field ++ "=" ++ phpUrlEncode (jsTrim v))
    | none => none

/-- Concatenation of entries, each followed by an ampersand, mirroring the
string grown by the generateSignature loop. -/
def ampConcat : List String → String
  | [] => ""
  | e :: rest => e ++ "&" ++ ampConcat rest

/-! ## ITN verification (verifyITN in lib/payfast.ts) -/

/-- Gateway configuration: sandbox flag and shared passphrase. -/
structure PayfastConfig where
  sandbox : Bool
  passphrase : String
deriving DecidableEq, Repr

/-- The failure cases of verifyITN, one per early return of the source; the
source reports them as strings, the constructors record the same data. -/
inductive VerifyError where
  | invalidSourceIP (ip : String)
  | signatureMismatch
  | amountMismatch
  | gatewayRejected (reply : String)
  | gatewayRequestFailed
deriving DecidableEq, Repr

/-- Rational addition written through mkRat so that closed instances reduce
in the kernel; proved equal to + below. -/
def qAdd (a b : ℚ) : ℚ := mkRat (a.num * b.den + b.num * a.den) (a.den * b.den)

/-- Rational multiplication written through mkRat; proved equal to * below. -/
def qMul (a b : ℚ) : ℚ := mkRat (a.num * b.num) (a.den * b.den)

/-- Rational subtraction written through mkRat; proved equal to - below. -/
def qSub (a b : ℚ) : ℚ := mkRat (a.num * b.den - b.num * a.den) (a.den * b.den)

/-- Absolute value on ℚ written through the primitive comparison; proved
equal to |·| below. -/
def qAbs (a : ℚ) : ℚ := if Rat.blt a 0 then -a else a

/-- JavaScript parseFloat restricted to plain decimal literals, which is the
only shape the gateway posts: optional sign, digits, optional fraction;
none models NaN. Trailing non-numeric characters are ignored as in
JavaScript. -/
def jsParseFloat (s : String) : Option ℚ :=
  let signRest : ℚ × List Char :=
    match s.data with
    | '-' :: r => (-1, r)
    | '+' :: r => (1, r)
    | r => (1, r)
  let rest := signRest.2
  let intPart := rest.takeWhile Char.isDigit
  let intVal : ℚ := (intPart.foldl (fun a c => a * 10 + (c.toNat - 48)) 0 : Nat)
  match rest.dropWhile Char.isDigit with
  | '.' :: afterDot =>
    let fracPart := afterDot.takeWhile Char.isDigit
    if intPart = [] ∧ fracPart = [] then none
    else
      let fracVal : ℚ := mkRat (fracPart.foldl (fun a c => a * 10 + (c.toNat - 48)) 0 : Nat)
        (10 ^ fracPart.length)
      some (qMul signRest.1 (qAdd intVal fracVal))
  | _ => if intPart = [] then none else some (qMul signRest.1 intVal)

/-- The amount_gross string read by verifyITN: an undefined or empty field
falls back to the literal zero string. -/
def amountGrossStr (postData : List (String × String)) : String :=
  match lookupField postData "amount_gross" with
  | some v => if v = "" then "0" else v
  | none => "0"

/-- The amount check of verifyITN: the mismatch branch fires when the
absolute difference exceeds one hundredth; a NaN amount (none) compares
false in JavaScript, hence never fires the branch. -/
def amountMismatchB (received : Option ℚ) (expected : ℚ) : Bool :=
  match received with
  | some a => Rat.blt (mkRat 1 100) (qAbs (qSub a expected))
  | none => false

/-- verifyITN: origin check (skipped in sandbox), then signature recomputation
over the post data minus the signature field, then the amount tolerance
check, then the gateway validation round trip, whose plain-text reply is the
gatewayReply oracle (an error models a thrown fetch). Returns none when
valid. -/
def verifyITN (postData : List (String × String)) (sourceIP : String)
    (expectedAmount : ℚ) (cfg : PayfastConfig)
    (gatewayReply : Except Unit String) : Option VerifyError :=
  if ¬cfg.sandbox ∧ sourceIP ∉ PAYFAST_IPS then some (.invalidSourceIP sourceIP)
  else
    let receivedSignature := lookupField postData "signature"
    let stripped := removeKey "signature" postData
    let calculated := generateSignature stripped cfg.passphrase
    if receivedSignature ≠ some calculated then some .signatureMismatch
    else if amountMismatchB (jsParseFloat (amountGrossStr stripped))
        expectedAmount then some .amountMismatch
    else
      match gatewayReply with
      | .error _ => some .gatewayRequestFailed
      | .ok r => if r ≠ "VALID" then some (.gatewayRejected r) else none

/-! ## Data model: deal records, product rows, the two-tier store

The deal store has two tiers: the in-process cache (lib/deals-store.ts, a
map from token to DealData with an embedded product snapshot) and the
Supabase table dynamic_deals. The products table is the catalog. Tables are
embedded as association lists keyed by token / product id. -/

/-- Product snapshot embedded in a cached deal record at creation time. -/
structure ProductSnap where
  id : String
  product_name : String
  sku : Option String
  total_stock : Int
deriving DecidableEq, Repr

/-- A deal record. The cache rows carry the product snapshot; the database
rows do not have one in the source, and the handlers never read the snapshot
of a database row, so a single record type serves both tiers. -/
structure DealRec where
  token : String
  product_id : String
  product : ProductSnap
  customer_email : Option String
  customer_phone : Option String
  customer_name : Option String
  address : Option String
  quantity : Int
  cost_price : ℚ
  markup_percentage : ℚ
  offer_price : ℚ
  shipping : Option ℚ
  expiry : Int
  status : String
  pf_payment_id : Option String
  opencart_order_id : Option Int
deriving DecidableEq, Repr

/-- A catalog row of the products table. -/
structure ProductRec where
  product_name : String
  sku : Option String
  total_stock : Int
  cost_price : Option ℚ
  selling_price : Option ℚ
  active : Bool
deriving DecidableEq, Repr

/-- The persistent state the handlers touch: deal cache, dynamic_deals
table, products table. -/
structure AppState where
  cache : List (String × DealRec)
  db : List (String × DealRec)
  products : List (String × ProductRec)
deriving DecidableEq, Repr

/-- Keyed lookup in a table. -/
def tget {α : Type} (t : List (String × α)) (k : String) : Option α :=
  t.lookup k

/-- Map set: replace the row when the key exists, append it otherwise. -/
def tset {α : Type} (t : List (String × α)) (k : String) (v : α) :
    List (String × α) :=
  if (t.lookup k).isSome then
    t.map (fun kv => if kv.1 = k then (k, v) else kv)
  else t ++ [(k, v)]

/-- Conditional row update: apply f to the rows whose key matches, leave the
table unchanged otherwise. This is both the cache updateDeal (merge when the
token exists) and the Supabase update filtered by token equality. -/
def tupdate {α : Type} (t : List (String × α)) (k : String) (f : α → α) :
    List (String × α) :=
  t.map (fun kv => if kv.1 = k then (kv.1, f kv.2) else kv)

/-- Merge of an optional new column value: the Supabase client serializes the
update body as JSON, so an undefined value drops the key and leaves the
column untouched. -/
def setOpt (old new? : Option String) : Option String :=
  match new? with
  | some v => some v
  | none => old

/-! ## The notification handler (app/api/notify/route.ts POST) -/

/-- Row returned by the OpenCart product lookup findProductBySku. -/
structure OCProduct where
  product_id : Int
  name : String
  model : String
deriving DecidableEq, Repr

/-- Result of the OpenCart createOrder call. -/
structure OrderOutcome where
  success : Bool
  order_id : Int
deriving DecidableEq, Repr

/-- Outcomes of the external calls the notification handler makes, passed in
as oracles: the PayFast validate round trip (Except error models a thrown
fetch), the OpenCart SKU lookup and the OpenCart order creation (Except
error models a thrown exception, caught by the try block of the source). -/
structure NotifyOracles where
  gatewayReply : Except Unit String
  ocProduct : Except Unit (Option OCProduct)
  orderResult : Except Unit OrderOutcome
deriving Repr

/-- Observable outcome of one notification delivery: HTTP status and body,
the state afterwards, and how many createOrder calls were made. -/
structure NotifyResult where
  status : Nat
  body : String
  state : AppState
  orderAttempts : Nat
deriving DecidableEq, Repr

/-- The order creation try block of the COMPLETE branch: the SKU lookup runs
only when the product row exists and has a truthy sku; a thrown lookup is
caught before createOrder; otherwise createOrder is invoked once and on
success the OpenCart order id is written to both tiers. The payload contents
(customer, address, totals) do not alter state and are not modelled. -/
def notifyOrderBlock (st : AppState) (token : String) (_deal : DealRec)
    (prodRow : Option ProductRec) (ora : NotifyOracles) (db1 : List (String × DealRec)) :
    Nat × List (String × DealRec) × List (String × DealRec) :=
  let skuStep : Except Unit (Option OCProduct) :=
    match prodRow with
    | some p =>
      match p.sku with
      | some s => if s = "" then .ok none else ora.ocProduct
      | none => .ok none
    | none => .ok none
  match skuStep with
  | .error _ => (0, st.cache, db1)
  | .ok _ =>
    match ora.orderResult with
    | .error _ => (1, st.cache, db1)
    | .ok res =>
      if res.success then
        (1,
         tupdate st.cache token
           (fun d => { d with opencart_order_id := some res.order_id }),
         tupdate db1 token
           (fun d => { d with opencart_order_id := some res.order_id }))
      else (1, st.cache, db1)

/-- The ITN POST handler. Reads the correlation token, answers 400 when it is
missing or empty, looks the deal up in the cache first and in the database
second, answers 404 when neither has it, skips processing when the record it
read has status paid, verifies the notification, on failure resets the
database row to pending while recording pf_payment_id, and on a verified
COMPLETE marks the database row paid, clamps the catalog stock down by the
deal quantity, and attempts the downstream order once. Every reply after the
lookup succeeds is 200 OK. -/
def notifyWithDeal (st : AppState) (postData : List (String × String))
    (sourceIP : String) (cfg : PayfastConfig) (ora : NotifyOracles)
    (token : String) (deal : DealRec) : NotifyResult :=
  let paymentStatus := lookupField postData "payment_status"
  let pfPaymentId := lookupField postData "pf_payment_id"
  if deal.status = "paid" then ⟨200, "OK", st, 0⟩
  else
    let qty : Int := if deal.quantity = 0 then 1 else deal.quantity
    let ship : ℚ := deal.shipping.getD 0
    let expectedAmount : ℚ := qAdd (qMul deal.offer_price (qty : ℚ)) ship
    match verifyITN postData sourceIP expectedAmount cfg
        ora.gatewayReply with
    | some _ =>
      let db1 := tupdate st.db token (fun d =>
        { d with status := "pending",
                 pf_payment_id := setOpt d.pf_payment_id pfPaymentId })
      ⟨200, "OK", { st with db := db1 }, 0⟩
    | none =>
      if paymentStatus = some "COMPLETE" then
        let db1 := tupdate st.db token (fun d =>
          { d with status := "paid",
                   pf_payment_id := setOpt d.pf_payment_id pfPaymentId })
        let prodRow := tget st.products deal.product_id
        let products1 :=
          match prodRow with
          | some p =>
            tupdate st.products deal.product_id (fun q =>
              { q with total_stock := max 0 (p.total_stock - deal.quantity) })
          | none => st.products
        let ocd := notifyOrderBlock st token deal prodRow ora db1
        ⟨200, "OK",
         { cache := ocd.2.1, db := ocd.2.2, products := products1 },
         ocd.1⟩
      else if paymentStatus = some "CANCELLED" then
        let db1 := tupdate st.db token
          (fun d => { d with status := "cancelled" })
        ⟨200, "OK", { st with db := db1 }, 0⟩
      else ⟨200, "OK", st, 0⟩

def notifyPOST (st : AppState) (postData : List (String × String))
    (sourceIP : String) (cfg : PayfastConfig) (ora : NotifyOracles) :
    NotifyResult :=
  let token? := lookupField postData "m_payment_id"
  match token? with
  | none => ⟨400, "Invalid ITN: No payment ID", st, 0⟩
  | some token =>
    if token = "" then ⟨400, "Invalid ITN: No payment ID", st, 0⟩
    else
      let deal? :=
        match tget st.cache token with
        | some d => some d
        | none => tget st.db token
      match deal? with
      | none => ⟨404, "Deal not found", st, 0⟩
      | some deal => notifyWithDeal st postData sourceIP cfg ora token deal

/-- Two sequential deliveries of the same notification (the duplicate
delivery scenario of the external protocol). -/
def notifyTwice (st : AppState) (postData : List (String × String))
    (sourceIP : String) (cfg : PayfastConfig) (ora1 ora2 : NotifyOracles) :
    NotifyResult × NotifyResult :=
  let r1 := notifyPOST st postData sourceIP cfg ora1
  let r2 := notifyPOST r1.state postData sourceIP cfg ora2
  (r1, r2)

/-! ## The deal read endpoint (GET of the deal route) -/

/-- Outcome of a deal read: HTTP status, error or projection, new state. -/
structure ReadResult where
  status : Nat
  body : String
  observed : Option DealRec
  state : AppState
deriving DecidableEq, Repr

/-- GET handler of the deal route: look the deal up in the cache, then in
the database; when the expiry has passed and the status is still pending,
flip the stored status to expired and answer 410; otherwise answer the
projection. -/
def getDealGET (st : AppState) (token? : Option String) (now : Int) :
    ReadResult :=
  match token? with
  | none => ⟨400, "Token is required", none, st⟩
  | some token =>
    if token = "" then ⟨400, "Token is required", none, st⟩
    else
      match tget st.cache token with
      | some deal =>
        if now > deal.expiry ∧ deal.status = "pending" then
          let cache1 := tupdate st.cache token
            (fun d => { d with status := "expired" })
          ⟨410, "Deal has expired", none, { st with cache := cache1 }⟩
        else ⟨200, "deal", some deal, st⟩
      | none =>
        match tget st.db token with
        | some d =>
          if now > d.expiry ∧ d.status = "pending" then
            let db1 := tupdate st.db token
              (fun r => { r with status := "expired" })
            ⟨410, "Deal has expired", none, { st with db := db1 }⟩
          else ⟨200, "deal", some d, st⟩
        | none => ⟨404, "Deal not found", none, st⟩

/-! ## The payment initiation handler (pay route POST): the accept step -/

/-- Outcome of payment initiation. The PayFast redirect form HTML returned
on success carries no state and is not modelled; the body field holds the
error text, or a fixed marker for the form. -/
structure PayResult where
  status : Nat
  body : String
  state : AppState
deriving DecidableEq, Repr

/-- A JavaScript or-default between an incoming optional field and a stored
one: an undefined or empty incoming value keeps the stored one. -/
def jsOrOpt (new? old : Option String) : Option String :=
  match new? with
  | some v => if v = "" then old else some v
  | none => old

/-- POST handler of the pay route: the accept transition. Cache path first:
expiry check (flipping pending or accepted to expired with a 410), then the
status gate, then the stock check against the embedded product snapshot,
then the write of customer data and status accepted to both tiers. Database
path when the cache misses: the query only returns rows whose status is
pending or accepted, then the expiry check, then the stock check against the
joined catalog row; a missing catalog row makes the join null and the stock
read throws, caught as a 500. -/
def payPOST (st : AppState) (token? : Option String)
    (customerEmail? customerPhone? customerName? address? : Option String)
    (now : Int) : PayResult :=
  match token? with
  | none => ⟨400, "Deal token is required", st⟩
  | some token =>
    if token = "" then ⟨400, "Deal token is required", st⟩
    else
      match tget st.cache token with
      | some deal =>
        if now > deal.expiry ∧ (deal.status = "pending" ∨ deal.status = "accepted") then
          let cacheE := tupdate st.cache token
            (fun d => { d with status := "expired" })
          ⟨410, "Deal has expired", { st with cache := cacheE }⟩
        else if deal.status ≠ "pending" ∧ deal.status ≠ "accepted" then
          ⟨404, "Deal not found or already processed", st⟩
        else if deal.product.total_stock < deal.quantity then
          ⟨400, "Insufficient stock", st⟩
        else
          let email := jsOrOpt customerEmail? deal.customer_email
          let phone := jsOrOpt customerPhone? deal.customer_phone
          let cache1 := tupdate st.cache token (fun d =>
            { d with customer_email := email, customer_phone := phone,
                     customer_name := customerName?, address := address?,
                     status := "accepted" })
          let db1 := tupdate st.db token (fun d =>
            { d with customer_email := setOpt d.customer_email email,
                     customer_phone := setOpt d.customer_phone phone,
                     customer_name := setOpt d.customer_name customerName?,
                     address := setOpt d.address address?,
                     status := "accepted" })
          ⟨200, "PAYFAST_REDIRECT_FORM", { st with cache := cache1, db := db1 }⟩
      | none =>
        match tget st.db token with
        | some d =>
          if d.status ≠ "pending" ∧ d.status ≠ "accepted" then
            ⟨404, "Deal not found or already processed", st⟩
          else if now > d.expiry then
            let dbE := tupdate st.db token
              (fun r => { r with status := "expired" })
            ⟨410, "Deal has expired", { st with db := dbE }⟩
          else
            match tget st.products d.product_id with
            | none => ⟨500, "Failed to initiate payment", st⟩
            | some p =>
              if p.total_stock < d.quantity then
                ⟨400, "Insufficient stock", st⟩
              else
                let db1 := tupdate st.db token (fun r =>
                  { r with
                      customer_email := setOpt r.customer_email
                        (jsOrOpt customerEmail? d.customer_email),
                      customer_phone := setOpt r.customer_phone
                        (jsOrOpt customerPhone? d.customer_phone),
                      customer_name := setOpt r.customer_name customerName?,
                      address := setOpt r.address address?,
                      status := "accepted" })
                ⟨200, "PAYFAST_REDIRECT_FORM", { st with db := db1 }⟩
        | none => ⟨404, "Deal not found or already processed", st⟩

/-! ## Deal creation (POST of the deal route) -/

/-- Outcome of deal creation. -/
structure CreateResult where
  status : Nat
  body : String
  deal : Option DealRec
  state : AppState
deriving DecidableEq, Repr

/-- An incoming optional body field stored with an or-null fallback: empty
strings become null. -/
def jsOrNull (new? : Option String) : Option String :=
  match new? with
  | some v => if v = "" then none else some v
  | none => none

/-- POST handler of the deal route: deal creation. Requires the referenced
product to exist, be active and have positive stock; takes the cost price,
falling back to sixty percent of a positive selling price; computes the
offer price by rounding cost times one plus the markup fraction; stamps the
expiry at now plus the configured minutes; inserts the pending record into
the database (best effort, an insert failure is only logged) and the cache.
The token is the freshly generated UUID, passed in as an argument; now is in
milliseconds. -/
def createDealPOST (st : AppState) (productId? : Option String)
    (customerEmail? customerPhone? : Option String) (quantity : Int)
    (markupPercentage : ℚ) (expiryMinutes : Int) (token : String)
    (now : Int) (dbInsertOk : Bool) : CreateResult :=
  match productId? with
  | none => ⟨400, "Product ID is required", none, st⟩
  | some pid =>
    if pid = "" then ⟨400, "Product ID is required", none, st⟩
    else
      match tget st.products pid with
      | none => ⟨404, "Product fetch failed", none, st⟩
      | some p =>
        if ¬p.active then ⟨400, "Product is not active", none, st⟩
        else if p.total_stock ≤ 0 then
          ⟨400, "Product is out of stock", none, st⟩
        else
          let costPrice? : Option ℚ :=
            match p.cost_price with
            | some c =>
              if c ≤ 0 then
                match p.selling_price with
                | some sp => if sp > 0 then some ((round (sp * (6 / 10)) : ℤ) : ℚ)
                    else none
                | none => none
              else some c
            | none =>
              match p.selling_price with
              | some sp => if sp > 0 then some ((round (sp * (6 / 10)) : ℤ) : ℚ)
                  else none
              | none => none
          match costPrice? with
          | none => ⟨400, "Product pricing not available", none, st⟩
          | some costPrice =>
            let offerPrice : ℤ := round (costPrice * (1 + markupPercentage / 100))
            let deal : DealRec :=
              { token := token, product_id := pid,
                product := { id := pid, product_name := p.product_name,
                             sku := p.sku, total_stock := p.total_stock },
                customer_email := jsOrNull customerEmail?,
                customer_phone := jsOrNull customerPhone?,
                customer_name := none, address := none,
                quantity := quantity, cost_price := costPrice,
                markup_percentage := markupPercentage,
                offer_price := (offerPrice : ℚ), shipping := none,
                expiry := now + expiryMinutes * 60000, status := "pending",
                pf_payment_id := none, opencart_order_id := none }
            let db1 := if dbInsertOk then tset st.db token deal else st.db
            let cache1 := tset st.cache token deal
            ⟨200, "deal", some deal, { st with cache := cache1, db := db1 }⟩

/-! ## Concrete fixtures used by the witnesses and counterexamples -/

/-- Sandbox configuration with an empty passphrase. -/
def cfgSandbox : PayfastConfig := ⟨true, ""⟩

/-- Concrete notification for the amount tolerance witness. Its signature is
the MD5 digest of the base string built from its recognized fields (here
only m_payment_id), with the empty passphrase skipped. -/
def pdC8 : List (String × String) :=
  [("m_payment_id", "t8"), ("payment_status", "COMPLETE"),
   ("amount_gross", "2299.98"),
   ("signature", "d82daefbbe5c07b4fb999242da13fe0f")]

/-- Catalog row for the expiry counterexample. -/
def prodC4 : ProductRec :=
  { product_name := "Spk", sku := some "S4", total_stock := 5,
    cost_price := some 100, selling_price := some 200, active := true }

/-- An expired deal (expiry at 1000, already flipped to expired). -/
def dealC4 : DealRec :=
  { token := "t4", product_id := "p4",
    product := { id := "p4", product_name := "Spk", sku := some "S4",
                 total_stock := 5 },
    customer_email := some "jo@x.za", customer_phone := none,
    customer_name := some "Jo", address := none, quantity := 2,
    cost_price := 100, markup_percentage := 15, offer_price := 115,
    shipping := none, expiry := 1000, status := "expired",
    pf_payment_id := none, opencart_order_id := none }

/-- The same deal still pending, for the read and accept witnesses. -/
def dealC4p : DealRec := { dealC4 with status := "pending" }

/-- State holding the expired dealC4 in both tiers plus its catalog row. -/
def stC4 : AppState :=
  { cache := [("t4", dealC4)], db := [("t4", dealC4)],
    products := [("p4", prodC4)] }

/-- State holding the pending-but-past-expiry dealC4p in both tiers. -/
def stC4p : AppState :=
  { cache := [("t4", dealC4p)], db := [("t4", dealC4p)],
    products := [("p4", prodC4)] }

/-- A correctly signed COMPLETE notification for the expired dealC4; the
gross amount 230 equals offer 115 times quantity 2. -/
def pdC4 : List (String × String) :=
  [("m_payment_id", "t4"), ("payment_status", "COMPLETE"),
   ("pf_payment_id", "PF4"), ("amount_gross", "230"),
   ("signature", "b525640b3cb16e53921653bcdaf448aa")]

/-- Oracles for a fully successful external round: gateway validates, the
OpenCart SKU lookup finds a product, order creation succeeds. -/
def oraHappy : NotifyOracles :=
  { gatewayReply := .ok "VALID",
    ocProduct := .ok (some { product_id := 42, name := "OC", model := "M" }),
    orderResult := .ok { success := true, order_id := 777 } }


/-- Production configuration (origin check active) with empty passphrase. -/
def cfgProd : PayfastConfig := ⟨false, ""⟩

/-- An accepted deal with no payment reference yet, for the rejected-origin
counterexample. -/
def dealC2 : DealRec :=
  { token := "t2", product_id := "p2",
    product := { id := "p2", product_name := "X", sku := some "S2",
                 total_stock := 5 },
    customer_email := some "jo@x.za", customer_phone := none,
    customer_name := some "Jo Do", address := none, quantity := 1,
    cost_price := 100, markup_percentage := 15, offer_price := 115,
    shipping := none, expiry := 99999999, status := "accepted",
    pf_payment_id := none, opencart_order_id := none }

/-- State holding dealC2 in both tiers. -/
def stC2 : AppState :=
  { cache := [("t2", dealC2)], db := [("t2", dealC2)], products := [] }

/-- A notification for dealC2 arriving from a non-allow-listed address. -/
def pdC2 : List (String × String) :=
  [("m_payment_id", "t2"), ("payment_status", "COMPLETE"),
   ("pf_payment_id", "PF9"), ("amount_gross", "115.00"),
   ("signature", "00000000000000000000000000000000")]

/-- Catalog row for the creation witness: active, stock 5, cost 1000,
selling 2000. -/
def prodC9 : ProductRec :=
  { product_name := "Amp", sku := some "S9", total_stock := 5,
    cost_price := some 1000, selling_price := some 2000, active := true }

/-- State holding only the catalog row for the creation witness. -/
def stC9 : AppState := { cache := [], db := [], products := [("p9", prodC9)] }

/-- The deal record the creation handler builds for prodC9 with quantity 2,
markup 15 percent, 20 minute expiry, token t9, at time zero. -/
def dealC9 : DealRec :=
  { token := "t9", product_id := "p9",
    product := { id := "p9", product_name := "Amp", sku := some "S9",
                 total_stock := 5 },
    customer_email := none, customer_phone := none, customer_name := none,
    address := none, quantity := 2, cost_price := 1000,
    markup_percentage := 15, offer_price := 1150, shipping := none,
    expiry := 1200000, status := "pending", pf_payment_id := none,
    opencart_order_id := none }

/-- Catalog row for the duplicate delivery scenario. -/
def prodC1 : ProductRec :=
  { product_name := "Amp", sku := some "S1", total_stock := 5,
    cost_price := some 1000, selling_price := some 2000, active := true }

/-- An accepted, unexpired deal: offer 1150, quantity 2. -/
def dealC1 : DealRec :=
  { token := "t1", product_id := "p1",
    product := { id := "p1", product_name := "Amp", sku := some "S1",
                 total_stock := 5 },
    customer_email := some "jo@x.za", customer_phone := none,
    customer_name := some "Jo Do", address := none, quantity := 2,
    cost_price := 1000, markup_percentage := 15, offer_price := 1150,
    shipping := none, expiry := 9999999999, status := "accepted",
    pf_payment_id := none, opencart_order_id := none }

/-- State holding dealC1 in both tiers plus its catalog row. -/
def stC1 : AppState :=
  { cache := [("t1", dealC1)], db := [("t1", dealC1)],
    products := [("p1", prodC1)] }

/-- A correctly signed COMPLETE notification for dealC1: gross 2300 equals
offer 1150 times quantity 2. -/
def pdC1 : List (String × String) :=
  [("m_payment_id", "t1"), ("payment_status", "COMPLETE"),
   ("pf_payment_id", "PF1"), ("amount_gross", "2300"),
   ("signature", "c040e8aadcc909b58156b187e48b3d3d")]

/-- The same valid notification delivered twice, sequentially, with both
external rounds succeeding. -/
def runC1 : NotifyResult × NotifyResult :=
  notifyTwice stC1 pdC1 "197.97.145.144" cfgProd oraHappy oraHappy

/-! ## Lemmas about the encoding -/


theorem char_toNat_lt (c : Char) : c.toNat < 1114112 := by
  rcases c.valid with h | ⟨_, h⟩ <;> exact Nat.lt_of_lt_of_le h (by omega)

theorem char_eq_space_of_toNat (c : Char) (h : c.toNat = 32) : c = ' ' := by
  have := Char.ofNat_toNat c
  rw [h] at this
  exact this.symm

theorem mem_utf8Char_lt (c : Char) (b : Nat) (hb : b ∈ utf8Char c) : b < 256 := by
  have hlt := char_toNat_lt c
  simp only [utf8Char] at hb
  split_ifs at hb <;> simp only [List.mem_cons, List.not_mem_nil, or_false] at hb <;>
    omega

theorem mem_utf8Char_ne32 (c : Char) (hc : c ≠ ' ') (b : Nat)
    (hb : b ∈ utf8Char c) : b ≠ 32 := by
  have hn32 : c.toNat ≠ 32 := fun h => hc (char_eq_space_of_toNat c h)
  simp only [utf8Char] at hb
  split_ifs at hb <;> simp only [List.mem_cons, List.not_mem_nil, or_false] at hb <;>
    omega

theorem replacePct20_cons_ne (c : Char) (l : List Char) (h : c ≠ '%') :
    replacePct20 (c :: l) = c :: replacePct20 l := by
  match l with
  | [] => simp [replacePct20, h]
  | [c2] => simp [replacePct20, h]
  | c2 :: c3 :: rest => simp [replacePct20, h]

theorem replacePct20_pct (c2 c3 : Char) (l : List Char)
    (h : ¬(c2 = '2' ∧ c3 = '0')) :
    replacePct20 ('%' :: c2 :: c3 :: l) = '%' :: replacePct20 (c2 :: c3 :: l) := by
  by_cases h2 : c2 = '2'
  · subst h2
    by_cases h3 : c3 = '0'
    · exact absurd ⟨rfl, h3⟩ h
    · simp [replacePct20, h3]
  · simp [replacePct20, h2]

theorem hexDigitUpper_ne_pct {n : Nat} (h : n < 16) : hexDigitUpper n ≠ '%' := by
  interval_cases n <;> decide

theorem hexDigitUpper_eq_two {n : Nat} (h : n < 16) :
    hexDigitUpper n = '2' ↔ n = 2 := by
  interval_cases n <;> decide

theorem hexDigitUpper_eq_zero {n : Nat} (h : n < 16) :
    hexDigitUpper n = '0' ↔ n = 0 := by
  interval_cases n <;> decide

theorem replacePct20_encByte (b : Nat) (hlt : b < 256) (h32 : b ≠ 32)
    (rest : List Char) :
    replacePct20 (encByte b ++ rest) = encByte b ++ replacePct20 rest := by
  unfold encByte
  split_ifs with hu
  · have hne : Char.ofNat b ≠ '%' := by
      intro he
      have h2 : uriUnreserved (Char.ofNat b) = true := (Bool.and_eq_true _ _ |>.mp hu).2
      rw [he] at h2
      exact absurd h2 (by decide)
    simpa using replacePct20_cons_ne (Char.ofNat b) rest hne
  · have hd : b / 16 < 16 := by omega
    have hm : b % 16 < 16 := by omega
    have hno : ¬(hexDigitUpper (b / 16) = '2' ∧ hexDigitUpper (b % 16) = '0') := by
      rintro ⟨h2, h0⟩
      rw [hexDigitUpper_eq_two hd] at h2
      rw [hexDigitUpper_eq_zero hm] at h0
      omega
    simp only [percentByte, List.cons_append, List.nil_append]
    rw [replacePct20_pct _ _ _ hno,
      replacePct20_cons_ne _ _ (hexDigitUpper_ne_pct hd),
      replacePct20_cons_ne _ _ (hexDigitUpper_ne_pct hm)]

theorem bfFlatMapCongr {α β : Type} (l : List α) (f g : α → List β)
    (h : ∀ a ∈ l, f a = g a) : l.flatMap f = l.flatMap g := by
  induction l with
  | nil => rfl
  | cons a l ih =>
    simp only [List.flatMap_cons]
    rw [h a (List.mem_cons_self a l), ih (fun x hx => h x (List.mem_cons_of_mem a hx))]

theorem replacePct20_flatMap (bs : List Nat) (h : ∀ b ∈ bs, b < 256) :
    replacePct20 (bs.flatMap encByte) = bs.flatMap phpEncByte := by
  induction bs with
  | nil => rfl
  | cons b bs ih =>
    simp only [List.flatMap_cons]
    have hrest := ih (fun x hx => h x (List.mem_cons_of_mem b hx))
    by_cases h32 : b = 32
    · subst h32
      rw [show encByte 32 = ['%', '2', '0'] from by decide]
      show replacePct20 ('%' :: '2' :: '0' :: _) = _
      rw [show phpEncByte 32 = ['+'] from by decide]
      simp [replacePct20, hrest]
    · rw [replacePct20_encByte b (h b (List.mem_cons_self b bs)) h32, hrest]
      simp [phpEncByte, h32]

theorem flatMap_phpEncByte_char (c : Char) :
    (utf8Char c).flatMap phpEncByte = phpEncodeChar c := by
  by_cases hc : c = ' '
  · subst hc; decide
  · unfold phpEncodeChar
    rw [if_neg hc]
    exact bfFlatMapCongr _ _ _ (fun b hb => by
      unfold phpEncByte
      rw [if_neg (mem_utf8Char_ne32 c hc b hb)])

theorem phpUrlEncode_data (s : String) :
    (phpUrlEncode s).data = s.data.flatMap phpEncodeChar := by
  show replacePct20 ((utf8Bytes s).flatMap encByte) = _
  rw [replacePct20_flatMap _ (fun b hb => by
    rcases List.mem_flatMap.mp hb with ⟨c, _, hbc⟩
    exact mem_utf8Char_lt c b hbc)]
  show (s.data.flatMap utf8Char).flatMap phpEncByte = _
  rw [List.flatMap_assoc]
  exact bfFlatMapCongr _ _ _ (fun c _ => flatMap_phpEncByte_char c)

/-! ## Lemmas about the signature base string -/


theorem ampConcat_append (l1 l2 : List String) :
    ampConcat (l1 ++ l2) = ampConcat l1 ++ ampConcat l2 := by
  induction l1 with
  | nil => simp [ampConcat, String.empty_append]
  | cons e l ih => simp [ampConcat, ih, String.append_assoc]

theorem ampConcat_data_ne_nil (e : String) (l : List String) :
    (ampConcat (e :: l)).data ≠ [] := by
  show ((e ++ "&") ++ ampConcat l).data ≠ []
  simp [String.data_append]

theorem jsDropLast_ampConcat (es : List String) :
    jsDropLast (ampConcat es) = joinAmp es := by
  induction es with
  | nil => rfl
  | cons e rest ih =>
    cases rest with
    | nil =>
      apply String.ext
      show (((e ++ "&") ++ "").data).dropLast = e.data
      simp [String.data_append]
    | cons e2 rest2 =>
      apply String.ext
      have ihd := congrArg String.data ih
      show (((e ++ "&") ++ ampConcat (e2 :: rest2)).data).dropLast =
        ((e ++ "&") ++ joinAmp (e2 :: rest2)).data
      simp only [String.data_append]
      rw [List.dropLast_append_of_ne_nil _ (ampConcat_data_ne_nil e2 rest2)]
      simpa using ihd

theorem pfOutput_fold (data : List (String × String)) (fields : List String)
    (acc : String) :
    fields.foldl (fun acc field =>
      if field = "passphrase" then acc
      else
        match lookupField data field with
        | some v => if v = "" then acc
            else acc ++ field ++ "=" ++ phpUrlEncode (jsTrim v) ++ "&"
        | none => acc) acc
    = acc ++ ampConcat (fields.filterMap (entryOf data)) := by
  induction fields generalizing acc with
  | nil => simp [ampConcat, String.append_empty]
  | cons f fs ih =>
    simp only [List.foldl_cons, List.filterMap_cons]
    by_cases hf : f = "passphrase"
    · subst hf
      rw [if_pos rfl,
        show entryOf data "passphrase" = none from by simp [entryOf]]
      exact ih acc
    · rw [if_neg hf]
      cases hv : lookupField data f with
      | none =>
        rw [show entryOf data f = none from by simp [entryOf, hf, hv]]
        simp only [hv]
        exact ih acc
      | some v =>
        simp only [hv]
        by_cases hv0 : v = ""
        · rw [if_pos hv0,
            show entryOf data f = none from by simp [entryOf, hf, hv, hv0]]
          exact ih acc
        · rw [if_neg hv0,
            show entryOf data f = some (f ++ "=" ++ phpUrlEncode (jsTrim v))
              from by simp [entryOf, hf, hv, hv0]]
          rw [ih]
          show _ = acc ++ ampConcat (_ :: _)
          simp [ampConcat, String.append_assoc]

theorem fieldEntries_eq (data : List (String × String)) :
    fieldEntries data = PAYFAST_FIELD_ORDER.filterMap (entryOf data) := by
  unfold fieldEntries
  generalize PAYFAST_FIELD_ORDER = l
  induction l with
  | nil => rfl
  | cons f fs ih =>
    simp only [List.filter_cons, List.filterMap_cons]
    by_cases hf : f = "passphrase"
    · subst hf
      rw [show entryOf data "passphrase" = none from by simp [entryOf]]
      simpa using ih
    · rw [show (decide (f ≠ "passphrase")) = true from by simp [hf]]
      simp only [if_true]
      cases hv : lookupField data f with
      | none =>
        rw [show entryOf data f = none from by simp [entryOf, hf, hv]]
        simp only [List.filterMap_cons, hv]
        exact ih
      | some v =>
        simp only [List.filterMap_cons, hv]
        by_cases hv0 : v = ""
        · rw [if_pos hv0,
            show entryOf data f = none from by simp [entryOf, hf, hv, hv0]]
          exact ih
        · rw [if_neg hv0,
            show entryOf data f = some (f ++ "=" ++ phpUrlEncode (jsTrim v))
              from by simp [entryOf, hf, hv, hv0]]
          rw [ih]

/-- The base string is exactly the entries of the declarative description
joined with ampersands. -/
theorem getString_eq (data : List (String × String)) (passphrase : String) :
    getString data passphrase = joinAmp (signatureEntries data passphrase) := by
  unfold getString pfOutput signatureEntries
  rw [pfOutput_fold data PAYFAST_FIELD_ORDER ""]
  rw [String.empty_append, ← fieldEntries_eq]
  split_ifs with hp
  · rw [← jsDropLast_ampConcat]
    congr 1
    simp [ampConcat_append, ampConcat, String.append_assoc, String.append_empty]
  · rw [← jsDropLast_ampConcat]
    congr 1
    simp [ampConcat_append, ampConcat, String.append_empty]

theorem getString_congr (d1 d2 : List (String × String)) (p : String)
    (h : ∀ f ∈ PAYFAST_FIELD_ORDER, lookupField d1 f = lookupField d2 f) :
    getString d1 p = getString d2 p := by
  rw [getString_eq, getString_eq]
  unfold signatureEntries
  rw [fieldEntries_eq, fieldEntries_eq]
  have he : List.filterMap (entryOf d1) PAYFAST_FIELD_ORDER =
      List.filterMap (entryOf d2) PAYFAST_FIELD_ORDER :=
    List.filterMap_congr (fun f hf => by unfold entryOf; rw [h f hf])
  rw [he]

theorem lookup_eq_of_perm {β : Type} {l1 l2 : List (String × β)}
    (hp : l1.Perm l2) (k : String) :
    (l1.map Prod.fst).Nodup → l1.lookup k = l2.lookup k := by
  induction hp with
  | nil => intro _; rfl
  | cons x h ih =>
    intro hnd
    simp only [List.map_cons, List.nodup_cons] at hnd
    cases x with
    | mk a b =>
      by_cases hk : k == a
      · simp [List.lookup, hk]
      · simp only [Bool.not_eq_true] at hk
        simp [List.lookup, hk, ih hnd.2]
  | swap x y l =>
    intro hnd
    cases x with
    | mk a b =>
      cases y with
      | mk c d =>
        simp only [List.map_cons, List.nodup_cons, List.mem_cons] at hnd
        have hca : c ≠ a := fun he => hnd.1 (Or.inl he)
        by_cases h1 : k == c
        · have hkc : k = c := by simpa using h1
          have h2 : (k == a) = false := by
            simp [hkc, hca]
          simp [List.lookup, h1, h2]
        · simp only [Bool.not_eq_true] at h1
          by_cases h2 : k == a
          · simp [List.lookup, h1, h2]
          · simp only [Bool.not_eq_true] at h2
            simp [List.lookup, h1, h2]
  | trans h1 h2 ih1 ih2 =>
    intro hnd
    exact (ih1 hnd).trans (ih2 (((h1.map Prod.fst).nodup_iff).mp hnd))

theorem tget_tupdate_self {α : Type} (t : List (String × α)) (k : String)
    (f : α → α) :
    tget (tupdate t k f) k = Option.map f (tget t k) := by
  induction t with
  | nil => rfl
  | cons kv t ih =>
    obtain ⟨k2, v⟩ := kv
    simp only [tupdate, List.map_cons] at *
    by_cases hk : k2 = k
    · subst hk
      rw [show (if (k2, v).1 = k2 then ((k2, v).1, f (k2, v).2) else (k2, v))
          = (k2, f v) from by simp]
      simp [tget, List.lookup]
    · simp only [if_neg hk]
      have hb : (k == k2) = false := by
        simp [beq_iff_eq, Ne.symm hk]
      simp [tget, List.lookup, hb] at ih ⊢
      exact ih

/-- The primitive comparison on ℚ is the order relation. -/
theorem blt_iff_lt (a b : ℚ) : Rat.blt a b = true ↔ a < b := Iff.rfl

/-- The kernel-evaluable addition agrees with the field addition. -/
theorem qAdd_eq (a b : ℚ) : qAdd a b = a + b := by
  have ha : (a.den : ℤ) ≠ 0 := Int.natCast_ne_zero.mpr a.den_nz
  have hb : (b.den : ℤ) ≠ 0 := Int.natCast_ne_zero.mpr b.den_nz
  rw [qAdd, Rat.mkRat_eq_divInt, Nat.cast_mul]
  conv_rhs => rw [← Rat.num_divInt_den a, ← Rat.num_divInt_den b]
  rw [Rat.divInt_add_divInt _ _ ha hb]

/-- The kernel-evaluable multiplication agrees with the field one. -/
theorem qMul_eq (a b : ℚ) : qMul a b = a * b := by
  rw [qMul, Rat.mkRat_eq_divInt, Nat.cast_mul]
  conv_rhs => rw [← Rat.num_divInt_den a, ← Rat.num_divInt_den b]
  rw [Rat.divInt_mul_divInt']

/-- The kernel-evaluable subtraction agrees with the field one. -/
theorem qSub_eq (a b : ℚ) : qSub a b = a - b := by
  have ha : (a.den : ℤ) ≠ 0 := Int.natCast_ne_zero.mpr a.den_nz
  have hb : (b.den : ℤ) ≠ 0 := Int.natCast_ne_zero.mpr b.den_nz
  rw [qSub, Rat.mkRat_eq_divInt, Nat.cast_mul]
  conv_rhs => rw [← Rat.num_divInt_den a, ← Rat.num_divInt_den b]
  rw [Rat.divInt_sub_divInt _ _ ha hb]

/-- The kernel-evaluable absolute value agrees with |·|. -/
theorem qAbs_eq (a : ℚ) : qAbs a = |a| := by
  show (if Rat.blt a 0 = true then -a else a) = |a|
  by_cases h : a < 0
  · rw [if_pos ((blt_iff_lt a 0).mpr h), abs_of_neg h]
  · rw [if_neg (fun hb => h ((blt_iff_lt a 0).mp hb))]
    exact (abs_of_nonneg (not_lt.mp h)).symm

theorem mkRat_one_hundredth : (mkRat 1 100 : ℚ) = 1 / 100 := by
  rw [Rat.mkRat_eq_div]; norm_num

/-- The amount-mismatch flag fires exactly when the absolute difference
exceeds one hundredth. -/
theorem amountMismatchB_some (a e : ℚ) :
    (amountMismatchB (some a) e = true) ↔ 1 / 100 < |a - e| := by
  show (Rat.blt (mkRat 1 100) (qAbs (qSub a e)) = true) ↔ _
  rw [qSub_eq, qAbs_eq, mkRat_one_hundredth]
  exact blt_iff_lt _ _

/-- The database row a notification order block leaves for the token keeps
the status the incoming database tier had for it: the block only ever adds
the OpenCart order id. -/
theorem notifyOrderBlock_db (st : AppState) (token : String)
    (deal : DealRec) (prodRow : Option ProductRec) (ora : NotifyOracles)
    (db1 : List (String × DealRec)) :
    (notifyOrderBlock st token deal prodRow ora db1).2.2 = db1 ∨
    ∃ oid, (notifyOrderBlock st token deal prodRow ora db1).2.2 =
      tupdate db1 token (fun d => { d with opencart_order_id := some oid }) := by
  unfold notifyOrderBlock
  cases hoc : ora.ocProduct <;> cases hor : ora.orderResult <;>
    rcases prodRow with _ | p <;> dsimp only <;> repeat' split
  all_goals first
    | (left; rfl)
    | (right; exact ⟨_, rfl⟩)

theorem notifyOrderBlock_db_status (st : AppState) (token : String)
    (deal : DealRec) (prodRow : Option ProductRec) (ora : NotifyOracles)
    (db1 : List (String × DealRec)) (d2 : DealRec)
    (hd2 : tget (notifyOrderBlock st token deal prodRow ora db1).2.2 token
      = some d2) :
    ∃ d1, tget db1 token = some d1 ∧ d2.status = d1.status := by
  rcases notifyOrderBlock_db st token deal prodRow ora db1 with h | ⟨oid, h⟩
  · rw [h] at hd2
    exact ⟨d2, hd2, rfl⟩
  · rw [h, tget_tupdate_self, Option.map_eq_some'] at hd2
    obtain ⟨d1, h1, h2⟩ := hd2
    exact ⟨d1, h1, by rw [← h2]⟩


/-! ## Claim theorems -/

/-- C1: evidence of the defect. The handler guards reprocessing by checking
the status of the deal record it read, cache tier first — but after a
successful confirmation it writes status paid only to the database tier,
never to the cache. On the second delivery of the same valid COMPLETE
notification the cache still answers with status accepted, the guard does
not fire, and the handler decrements the stock again (5 to 3 to 1) and makes
a second downstream order attempt, violating the claimed at-most-once
effect. The conjuncts: the first delivery makes one order attempt, leaves
stock 3, marks the database row paid but leaves the cache row accepted; the
second delivery then makes another order attempt and leaves stock 1,
answering 200. -/
theorem claim_C1_duplicate_not_idempotent :
    runC1.1.orderAttempts = 1
    ∧ tget runC1.1.state.products "p1" = some { prodC1 with total_stock := 3 }
    ∧ (tget runC1.1.state.db "t1").map DealRec.status = some "paid"
    ∧ (tget runC1.1.state.cache "t1").map DealRec.status = some "accepted"
    ∧ runC1.2.orderAttempts = 1
    ∧ tget runC1.2.state.products "p1" = some { prodC1 with total_stock := 1 }
    ∧ (tget runC1.2.state.db "t1").map DealRec.status = some "paid"
    ∧ runC1.2.status = 200 ∧ runC1.2.body = "OK" := by
  refine ⟨?_, ?_, ?_, ?_, ?_, ?_, ?_, ?_, ?_⟩ <;> decide

theorem notifyWithDeal_ok (st : AppState) (pd : List (String × String))
    (ip : String) (cfg : PayfastConfig) (ora : NotifyOracles) (tok : String)
    (deal : DealRec) :
    (notifyWithDeal st pd ip cfg ora tok deal).status = 200 ∧
    (notifyWithDeal st pd ip cfg ora tok deal).body = "OK" := by
  unfold notifyWithDeal
  constructor <;> dsimp only <;> (repeat' split) <;> rfl

/-- C2 counterexample: a notification from the non-allow-listed address
10.0.0.1 in production mode is rejected before the signature check, but the
stored database row does not keep its prior values: its status is rewritten
from accepted to pending and pf_payment_id is set from the notification, so
the deal is not left completely unchanged as claimed. -/
theorem claim_C2_counterexample :
    (verifyITN pdC2 "10.0.0.1" 115 cfgProd oraHappy.gatewayReply
      = some (.invalidSourceIP "10.0.0.1"))
    ∧ tget (notifyPOST stC2 pdC2 "10.0.0.1" cfgProd oraHappy).state.db "t2"
      = some { dealC2 with status := "pending", pf_payment_id := some "PF9" }
    ∧ tget (notifyPOST stC2 pdC2 "10.0.0.1" cfgProd oraHappy).state.db "t2"
      ≠ tget stC2.db "t2" := by
  refine ⟨rfl, by decide, by decide⟩

/-- C2 (amended): a notification failing verification (rejected origin,
signature mismatch, amount mismatch, gateway rejection or failed round
trip) causes no stock decrement and no downstream order attempt, leaves the
cache tier and the catalog untouched, and is answered 200 OK; but the
database row of the deal is written: its status is reset to pending and its
pf_payment_id is set when the notification carries one (other database rows
and all other columns keep their values). A notification from a
non-allow-listed source in production is rejected before the signature
check: the origin error is returned whatever the payload and signature. -/
theorem claim_C2_rejected_unverified (st : AppState)
    (pd : List (String × String)) (ip : String) (cfg : PayfastConfig)
    (ora : NotifyOracles) (token : String) (deal : DealRec) (e : VerifyError)
    (htok : lookupField pd "m_payment_id" = some token) (ht : token ≠ "")
    (hfound : (match tget st.cache token with
               | some d => some d
               | none => tget st.db token) = some deal)
    (hnotpaid : deal.status ≠ "paid")
    (hfail : verifyITN pd ip
      (deal.offer_price * ((if deal.quantity = 0 then 1 else deal.quantity : Int) : ℚ)
        + deal.shipping.getD 0) cfg ora.gatewayReply = some e) :
    (notifyPOST st pd ip cfg ora).status = 200
    ∧ (notifyPOST st pd ip cfg ora).body = "OK"
    ∧ (notifyPOST st pd ip cfg ora).orderAttempts = 0
    ∧ (notifyPOST st pd ip cfg ora).state.cache = st.cache
    ∧ (notifyPOST st pd ip cfg ora).state.products = st.products
    ∧ (notifyPOST st pd ip cfg ora).state.db = tupdate st.db token (fun d =>
        { d with status := "pending",
                 pf_payment_id := setOpt d.pf_payment_id
                   (lookupField pd "pf_payment_id") })
    ∧ (∀ (pd2 : List (String × String)) (ip2 : String) (exp2 : ℚ),
        cfg.sandbox = false → ip2 ∉ PAYFAST_IPS →
        verifyITN pd2 ip2 exp2 cfg ora.gatewayReply
          = some (.invalidSourceIP ip2)) := by
  have hres : notifyPOST st pd ip cfg ora =
      ⟨200, "OK",
       { st with db := tupdate st.db token (fun d =>
          { d with status := "pending",
                   pf_payment_id := setOpt d.pf_payment_id
                     (lookupField pd "pf_payment_id") }) }, 0⟩ := by
    unfold notifyPOST
    rw [htok]
    dsimp only
    rw [if_neg ht, hfound]
    dsimp only
    unfold notifyWithDeal
    rw [if_neg hnotpaid]
    dsimp only
    have hfail2 : verifyITN pd ip
        (qAdd (qMul deal.offer_price
          ((if deal.quantity = 0 then 1 else deal.quantity : Int) : ℚ))
          (deal.shipping.getD 0)) cfg ora.gatewayReply = some e := by
      rw [qAdd_eq, qMul_eq]; exact hfail
    rw [hfail2]
  rw [hres]
  refine ⟨rfl, rfl, rfl, rfl, rfl, rfl, ?_⟩
  intro pd2 ip2 exp2 hsb hip
  unfold verifyITN
  rw [if_pos ⟨by simp [hsb], hip⟩]

/-- Witness for C2: the amended statement applied to the concrete
rejected-origin scenario of the counterexample state. -/
theorem claim_C2_rejected_unverified_witness :
    (notifyPOST stC2 pdC2 "10.0.0.1" cfgProd oraHappy).status = 200
    ∧ (notifyPOST stC2 pdC2 "10.0.0.1" cfgProd oraHappy).orderAttempts = 0
    ∧ (notifyPOST stC2 pdC2 "10.0.0.1" cfgProd oraHappy).state.cache
      = stC2.cache :=
  ⟨(claim_C2_rejected_unverified stC2 pdC2 "10.0.0.1" cfgProd oraHappy "t2"
      dealC2 (.invalidSourceIP "10.0.0.1") (by decide) (by decide) (by decide)
      (by decide) (by decide)).1,
   (claim_C2_rejected_unverified stC2 pdC2 "10.0.0.1" cfgProd oraHappy "t2"
      dealC2 (.invalidSourceIP "10.0.0.1") (by decide) (by decide) (by decide)
      (by decide) (by decide)).2.2.1,
   (claim_C2_rejected_unverified stC2 pdC2 "10.0.0.1" cfgProd oraHappy "t2"
      dealC2 (.invalidSourceIP "10.0.0.1") (by decide) (by decide) (by decide)
      (by decide) (by decide)).2.2.2.1⟩

/-- C3 counterexample: a structurally parseable notification (it carries the
correlation token zzz) whose token matches no stored deal is answered 404,
not 200, and not the 400 reserved for unparseable payloads; this refutes the
claim that the only permitted non-200 response is a 400 for a missing
correlation token. -/
theorem claim_C3_counterexample :
    (notifyPOST { cache := [], db := [], products := [] }
      [("m_payment_id", "zzz")] "197.97.145.144" cfgSandbox oraHappy).status
      = 404
    ∧ (notifyPOST { cache := [], db := [], products := [] }
      [("m_payment_id", "zzz")] "197.97.145.144" cfgSandbox oraHappy).body
      = "Deal not found"
    ∧ lookupField [("m_payment_id", "zzz")] "m_payment_id" = some "zzz" := by
  refine ⟨rfl, rfl, rfl⟩

/-- C3 (amended): the notification handler answers 400 exactly when the
correlation token m_payment_id is missing or empty, 404 exactly when the
token is present but matches no deal in either store tier, and in every
other case — signature mismatch, amount mismatch, gateway rejection,
downstream order failure, duplicate delivery — it answers 200 with the
literal body OK. -/
theorem claim_C3_response_codes (st : AppState) (pd : List (String × String))
    (ip : String) (cfg : PayfastConfig) (ora : NotifyOracles) :
    ((notifyPOST st pd ip cfg ora).status = 400 ↔
      (lookupField pd "m_payment_id" = none ∨
        lookupField pd "m_payment_id" = some ""))
    ∧ ((notifyPOST st pd ip cfg ora).status = 404 ↔
      (∃ t, lookupField pd "m_payment_id" = some t ∧ t ≠ "" ∧
        tget st.cache t = none ∧ tget st.db t = none))
    ∧ ((notifyPOST st pd ip cfg ora).status = 200 ∨
       (notifyPOST st pd ip cfg ora).status = 400 ∨
       (notifyPOST st pd ip cfg ora).status = 404)
    ∧ ((notifyPOST st pd ip cfg ora).status = 200 →
        (notifyPOST st pd ip cfg ora).body = "OK") := by
  unfold notifyPOST
  cases htok : lookupField pd "m_payment_id" with
  | none =>
    dsimp only
    exact ⟨by simp, by simp, Or.inr (Or.inl rfl), by simp⟩
  | some t =>
    dsimp only
    by_cases ht : t = ""
    · subst ht
      rw [if_pos rfl]
      exact ⟨by simp, by simp, Or.inr (Or.inl rfl), by simp⟩
    · rw [if_neg ht]
      cases hc : tget st.cache t with
      | some dl =>
        dsimp only
        have h2 := notifyWithDeal_ok st pd ip cfg ora t dl
        refine ⟨?_, ?_, Or.inl h2.1, fun _ => h2.2⟩
        · rw [h2.1]; simp [ht]
        · rw [h2.1]; simp [hc]
      | none =>
        cases hd : tget st.db t with
        | some dl =>
          dsimp only
          have h2 := notifyWithDeal_ok st pd ip cfg ora t dl
          refine ⟨?_, ?_, Or.inl h2.1, fun _ => h2.2⟩
          · rw [h2.1]; simp [ht]
          · rw [h2.1]; simp [hd]
        | none =>
          dsimp only
          refine ⟨by simp [ht], ?_, Or.inr (Or.inr rfl), by simp⟩
          exact iff_of_true rfl ⟨t, rfl, ht, hc, hd⟩

/-- Witness for C3 at concrete inputs: a missing token gives 400, a found
deal paid twice still gives 200 OK (instantiating the all-cases theorem). -/
theorem claim_C3_response_codes_witness :
    (notifyPOST { cache := [], db := [], products := [] } []
      "1.2.3.4" cfgSandbox oraHappy).status = 400
    ∧ ((notifyPOST { cache := [], db := [], products := [] } []
      "1.2.3.4" cfgSandbox oraHappy).status = 200 →
      (notifyPOST { cache := [], db := [], products := [] } []
        "1.2.3.4" cfgSandbox oraHappy).body = "OK") :=
  ⟨(claim_C3_response_codes _ _ _ _ _).1.mpr (Or.inl rfl),
   (claim_C3_response_codes _ _ _ _ _).2.2.2⟩

/-- C4 counterexample: a deal whose expiry (1000) has long passed (now 2000)
and which already carries status expired is still confirmed by a valid
COMPLETE notification: the handler has no expiry check, so the database row
moves to paid, stock is decremented and a downstream order attempt is made,
instead of failing with a DealExpired error as the claim states. -/
theorem claim_C4_counterexample :
    dealC4.status = "expired"
    ∧ (2000 : Int) > dealC4.expiry
    ∧ (notifyPOST stC4 pdC4 "197.97.145.144" cfgProd oraHappy).status = 200
    ∧ tget (notifyPOST stC4 pdC4 "197.97.145.144" cfgProd oraHappy).state.db
        "t4" = some { dealC4 with
          status := "paid", pf_payment_id := some "PF4",
          opencart_order_id := some 777 }
    ∧ tget (notifyPOST stC4 pdC4 "197.97.145.144"
        cfgProd oraHappy).state.products "p4"
        = some { prodC4 with total_stock := 3 } := by
  refine ⟨rfl, by decide, ?_, ?_, ?_⟩ <;> decide

/-- C4 (amended): expiry is enforced lazily by the read and accept paths
only. A read of a cached deal past its expiry while still pending flips the
stored status to expired and answers 410 Deal has expired; an accept attempt
against a cached pending or accepted deal past expiry likewise flips it and
answers 410; but confirmPayment performs no expiry check at all: a valid
COMPLETE notification for a deal already marked expired still rewrites the
database row to paid. -/
theorem claim_C4_expiry_lazy (now : Int) (st : AppState) (token : String)
    (deal : DealRec) (htok : token ≠ "")
    (hcache : tget st.cache token = some deal) :
    (now > deal.expiry → deal.status = "pending" →
      (getDealGET st (some token) now).status = 410
      ∧ (getDealGET st (some token) now).body = "Deal has expired"
      ∧ tget (getDealGET st (some token) now).state.cache token
          = some { deal with status := "expired" })
    ∧ (∀ ce cp cn ad, now > deal.expiry →
        (deal.status = "pending" ∨ deal.status = "accepted") →
        (payPOST st (some token) ce cp cn ad now).status = 410
        ∧ (payPOST st (some token) ce cp cn ad now).body = "Deal has expired"
        ∧ tget (payPOST st (some token) ce cp cn ad now).state.cache token
            = some { deal with status := "expired" })
    ∧ (∀ pd ip cfg ora, now > deal.expiry → deal.status = "expired" →
        lookupField pd "m_payment_id" = some token →
        lookupField pd "payment_status" = some "COMPLETE" →
        verifyITN pd ip (deal.offer_price *
          ((if deal.quantity = 0 then 1 else deal.quantity : Int) : ℚ)
          + deal.shipping.getD 0) cfg ora.gatewayReply = none →
        ∀ d2, tget (notifyPOST st pd ip cfg ora).state.db token = some d2 →
          d2.status = "paid") := by
  refine ⟨?_, ?_, ?_⟩
  · intro hexp hpend
    unfold getDealGET
    dsimp only
    rw [if_neg htok, hcache]
    dsimp only
    rw [if_pos ⟨hexp, hpend⟩]
    exact ⟨rfl, rfl, by dsimp only; rw [tget_tupdate_self, hcache]; rfl⟩
  · intro ce cp cn ad hexp hst
    unfold payPOST
    dsimp only
    rw [if_neg htok, hcache]
    dsimp only
    rw [if_pos ⟨hexp, hst⟩]
    exact ⟨rfl, rfl, by dsimp only; rw [tget_tupdate_self, hcache]; rfl⟩
  · intro pd ip cfg ora hexp hstat htokpd hps hver d2 hd2
    have hres : (notifyPOST st pd ip cfg ora).state.db
        = (notifyOrderBlock st token deal (tget st.products deal.product_id)
            ora (tupdate st.db token (fun d =>
              { d with
                status := "paid",
                pf_payment_id := setOpt d.pf_payment_id
                  (lookupField pd "pf_payment_id") }))).2.2 := by
      unfold notifyPOST
      rw [htokpd]
      dsimp only
      rw [if_neg htok, hcache]
      dsimp only
      unfold notifyWithDeal
      rw [if_neg (by rw [hstat]; decide)]
      dsimp only
      have hver2 : verifyITN pd ip
          (qAdd (qMul deal.offer_price
            ((if deal.quantity = 0 then 1 else deal.quantity : Int) : ℚ))
            (deal.shipping.getD 0)) cfg ora.gatewayReply = none := by
        rw [qAdd_eq, qMul_eq]; exact hver
      rw [hver2]
      dsimp only
      rw [if_pos hps]
    rw [hres] at hd2
    obtain ⟨d1, h1, h2⟩ := notifyOrderBlock_db_status _ _ _ _ _ _ _ hd2
    rw [tget_tupdate_self] at h1
    cases ho : tget st.db token with
    | none => rw [ho] at h1; exact absurd h1 (by simp)
    | some d0 =>
      rw [ho] at h1
      have h3 := Option.some.inj h1
      rw [h2, ← h3]

/-- Witness for C4: the concrete pending expired deal is flipped with a 410
by both the read and the accept path, and the concrete expired deal of the
counterexample still satisfies every hypothesis of the no-expiry-check
conjunct, whose conclusion reports the final row paid. -/
theorem claim_C4_expiry_lazy_witness :
    (getDealGET stC4p (some "t4") 2000).status = 410
    ∧ (payPOST stC4p (some "t4") none none none none 2000).status = 410
    ∧ ({ dealC4 with
          status := "paid", pf_payment_id := some "PF4",
          opencart_order_id := some 777 } : DealRec).status = "paid" :=
  ⟨((claim_C4_expiry_lazy 2000 stC4p "t4" dealC4p (by decide) (by decide)).1
      (by decide) rfl).1,
   ((claim_C4_expiry_lazy 2000 stC4p "t4" dealC4p (by decide) (by decide)).2.1
      none none none none (by decide) (Or.inl rfl)).1,
   (claim_C4_expiry_lazy 2000 stC4 "t4" dealC4 (by decide) (by decide)).2.2
      pdC4 "197.97.145.144" cfgProd oraHappy (by decide) rfl (by decide)
      (by decide) (by rw [← qAdd_eq, ← qMul_eq]; decide) _
      (by decide)⟩

/-- C9: every deal the creation handler returns stores
offer price equal to the rounding of cost price times one plus the markup
fraction (the markup percentage over one hundred), computed once at creation
from the stored creation time cost basis, with status pending; and in
particular a cost basis of 1000 with markup fraction fifteen hundredths
yields offer price 1150. -/
theorem claim_C9_offer_price (st : AppState) (productId? : Option String)
    (ce cp : Option String) (q : Int) (markup : ℚ) (em : Int) (tok : String)
    (now : Int) (dbOk : Bool) (d : DealRec)
    (hd : (createDealPOST st productId? ce cp q markup em tok now dbOk).deal
      = some d) :
    d.offer_price = ((round (d.cost_price * (1 + markup / 100)) : ℤ) : ℚ)
    ∧ d.markup_percentage = markup
    ∧ d.status = "pending"
    ∧ (d.cost_price = 1000 → markup = 15 → d.offer_price = 1150) := by
  unfold createDealPOST at hd
  cases productId? with
  | none => exact absurd hd (by simp)
  | some pid =>
    dsimp only at hd
    by_cases hp : pid = ""
    · rw [if_pos hp] at hd
      exact absurd hd (by simp)
    · rw [if_neg hp] at hd
      cases hrow : tget st.products pid with
      | none => rw [hrow] at hd; exact absurd hd (by simp)
      | some p =>
        rw [hrow] at hd
        dsimp only at hd
        by_cases ha : p.active
        · rw [if_neg (by simpa using ha)] at hd
          by_cases hs : p.total_stock ≤ 0
          · rw [if_pos hs] at hd
            exact absurd hd (by simp)
          · rw [if_neg hs] at hd
            set cp? := (match p.cost_price with
              | some c =>
                if c ≤ 0 then
                  match p.selling_price with
                  | some sp => if sp > 0 then
                        some ((round (sp * (6 / 10)) : ℤ) : ℚ)
                      else none
                  | none => none
                else some c
              | none =>
                match p.selling_price with
                | some sp => if sp > 0 then
                      some ((round (sp * (6 / 10)) : ℤ) : ℚ)
                    else none
                | none => none) with hcp
            cases hcpv : cp? with
            | none => rw [hcpv] at hd; exact absurd hd (by simp)
            | some costPrice =>
              rw [hcpv] at hd
              dsimp only at hd
              simp only [Option.some.injEq] at hd
              subst hd
              dsimp only
              refine ⟨rfl, rfl, rfl, ?_⟩
              intro hc hm
              rw [hc, hm]
              norm_num
        · rw [if_pos (by simpa using ha)] at hd
          exact absurd hd (by simp)

/-- Witness for C9: creating a deal against the 1000 cost, 15 percent markup
catalog row yields the stored record with offer price 1150. -/
theorem claim_C9_offer_price_witness :
    (createDealPOST stC9 (some "p9") none none 2 15 20 "t9" 0 true).deal
      = some dealC9
    ∧ dealC9.offer_price = 1150 := by
  have hd : (createDealPOST stC9 (some "p9") none none 2 15 20 "t9" 0 true).deal
      = some dealC9 := by
    simp only [createDealPOST, stC9, prodC9, tget]
    norm_num [List.lookup, dealC9]
    rw [if_neg (show ¬("p9" = "") from by decide)]
    simp [jsOrNull, dealC9]
  exact ⟨hd,
    (claim_C9_offer_price stC9 (some "p9") none none 2 15 20 "t9" 0 true
      dealC9 hd).2.2.2 rfl rfl⟩

/-- C5: the signature base string is built only from field names of the
fixed externally dictated ordered list, joined with ampersands in the order
of that list (never in insertion order); keys outside the list are silently
dropped; a recognized field whose value is absent or empty contributes no
pair at all; and a non-trivial passphrase (non-empty, and still non-empty
after the trim the source applies before encoding) is appended as the last
entry, encoded the same way, before the MD5 digest is taken. The first
conjunct is the exact characterization as the ampersand join of the
declarative entry list (recognized fields in list order, empty and absent
skipped, passphrase entry last); the second states that the string depends
on the input mapping only through the recognized field names, so any
unrecognized key is dropped. -/
theorem claim_C5_base_string (data : List (String × String)) (passphrase : String) :
    getString data passphrase = joinAmp (signatureEntries data passphrase)
    ∧ (∀ data2 : List (String × String),
        (∀ f ∈ PAYFAST_FIELD_ORDER, lookupField data2 f = lookupField data f) →
        getString data2 passphrase = getString data passphrase) :=
  ⟨getString_eq data passphrase,
   fun data2 h => getString_congr data2 data passphrase h⟩

/-- Witness for C5 at a concrete mapping: the characterization evaluated at
a mapping holding a recognized field, plus an unrecognized key that a
lookup-equivalent mapping omits. -/
theorem claim_C5_base_string_witness :
    getString [("item_name", "Test Item"), ("merchant_id", "10000100"),
        ("extra_key", "zzz")] "pass"
      = joinAmp (signatureEntries [("item_name", "Test Item"),
          ("merchant_id", "10000100"), ("extra_key", "zzz")] "pass")
    ∧ getString [("merchant_id", "10000100"), ("item_name", "Test Item")] "pass"
      = getString [("item_name", "Test Item"), ("merchant_id", "10000100"),
          ("extra_key", "zzz")] "pass" :=
  ⟨(claim_C5_base_string _ _).1, (claim_C5_base_string _ _).2 _ (by decide)⟩

/-- C6: generateSignature is deterministic (a pure function: equal inputs
give equal digests) and insensitive to the insertion order of the input
mapping: two association lists that are permutations of one another, with no
duplicate keys, produce identical digests, because the output order is
governed solely by the fixed field list. -/
theorem claim_C6_signature_deterministic :
    (∀ (data : List (String × String)) (p : String),
      generateSignature data p = generateSignature data p)
    ∧ ∀ (d1 d2 : List (String × String)) (p : String), d1.Perm d2 →
      (d1.map Prod.fst).Nodup →
      generateSignature d1 p = generateSignature d2 p :=
  ⟨fun _ _ => rfl,
   fun d1 d2 p hp hnd =>
     congrArg md5HexOfString
       (getString_congr d1 d2 p (fun f _ => lookup_eq_of_perm hp f hnd))⟩

/-- Witness for C6: two concrete two-field mappings in opposite insertion
order carry the same digest. -/
theorem claim_C6_signature_deterministic_witness :
    ([("m_payment_id", "x1"), ("amount", "9.99")] :
        List (String × String)).Perm [("amount", "9.99"), ("m_payment_id", "x1")]
    ∧ ([("m_payment_id", "x1"), ("amount", "9.99")].map Prod.fst).Nodup
    ∧ generateSignature [("m_payment_id", "x1"), ("amount", "9.99")] "s"
      = generateSignature [("amount", "9.99"), ("m_payment_id", "x1")] "s" :=
  ⟨by decide, by decide,
   claim_C6_signature_deterministic.2 _ _ "s" (by decide) (by decide)⟩

/-- C8: for a notification that reaches the amount check (source allowed or
sandbox, signature matching, gross amount parsing to the rational a), the
check fails exactly when the absolute difference between a and the expected
amount (offer price times quantity plus shipping, supplied by the caller as
expected) exceeds one hundredth, and within the tolerance verification
proceeds to the gateway round trip, whose reply alone decides the outcome.
Amounts are modelled as exact rationals; the source computes with binary
doubles, which agree on all decimal inputs of the protocol at this
tolerance. -/
theorem claim_C8_amount_tolerance (postData : List (String × String))
    (sourceIP : String) (expected : ℚ) (cfg : PayfastConfig)
    (gw : Except Unit String) (a : ℚ)
    (hip : cfg.sandbox = true ∨ sourceIP ∈ PAYFAST_IPS)
    (hsig : lookupField postData "signature" =
      some (generateSignature (removeKey "signature" postData) cfg.passphrase))
    (ha : jsParseFloat (amountGrossStr (removeKey "signature" postData)) = some a) :
    (verifyITN postData sourceIP expected cfg gw = some .amountMismatch ↔
      ¬(|a - expected| ≤ 1 / 100))
    ∧ (|a - expected| ≤ 1 / 100 →
        verifyITN postData sourceIP expected cfg gw =
          (match gw with
           | .error _ => some .gatewayRequestFailed
           | .ok r => if r ≠ "VALID" then some (.gatewayRejected r) else none)) := by
  have h1 : ¬(¬cfg.sandbox = true ∧ sourceIP ∉ PAYFAST_IPS) := by
    rcases hip with h | h <;> simp [h]
  simp only [verifyITN, if_neg h1, hsig, ha, ne_eq,
    not_true_eq_false, if_false, amountMismatchB_some]
  constructor
  · by_cases hc : |a - expected| ≤ 1 / 100
    · rw [if_neg (not_lt.mpr hc)]
      constructor
      · intro hg
        exfalso
        cases gw with
        | error e => simp at hg
        | ok r =>
          by_cases hr : r = "VALID" <;> simp [hr] at hg
      · intro hn
        exact absurd hc hn
    · rw [if_pos (not_le.mp hc)]
      exact iff_of_true rfl hc
  · intro hle
    rw [if_neg (not_lt.mpr hle)]

/-- Witness for C8: a notification whose gross amount is two hundredths
below the expected amount 2300 fails with the amount mismatch, and the same
notification against the matching expected amount passes through to the
gateway round trip and verifies. -/
theorem claim_C8_amount_tolerance_witness :
    (cfgSandbox.sandbox = true ∨ "10.0.0.1" ∈ PAYFAST_IPS)
    ∧ lookupField pdC8 "signature" =
        some (generateSignature (removeKey "signature" pdC8) cfgSandbox.passphrase)
    ∧ jsParseFloat (amountGrossStr (removeKey "signature" pdC8)) =
        some (229998 / 100)
    ∧ verifyITN pdC8 "10.0.0.1" 2300 cfgSandbox (.ok "VALID") =
        some .amountMismatch
    ∧ verifyITN pdC8 "10.0.0.1" (229998 / 100) cfgSandbox (.ok "VALID") = none := by
  have h100 : (229998 / 100 : ℚ) = mkRat 229998 100 := by
    rw [Rat.mkRat_eq_div]; norm_num
  have ha : jsParseFloat (amountGrossStr (removeKey "signature" pdC8)) =
      some (229998 / 100) := by rw [h100]; decide
  refine ⟨Or.inl rfl, by decide, ha, ?_, ?_⟩
  · exact (claim_C8_amount_tolerance pdC8 "10.0.0.1" 2300 cfgSandbox (.ok "VALID")
      (229998 / 100) (Or.inl rfl) (by decide) ha).1.mpr
      (by rw [not_le, lt_abs]; right; norm_num)
  · exact ((claim_C8_amount_tolerance pdC8 "10.0.0.1" (229998 / 100) cfgSandbox
      (.ok "VALID") (229998 / 100) (Or.inl rfl) (by decide) ha).2
      (by norm_num)).trans (by decide)

/-- C7: the value encoding maps space to plus and the at sign to the
uppercase percent escape 40, and percent encodes colon and slash as the
uppercase escapes 3A and 2F, for every input string: phpUrlEncode acts
character by character through phpEncodeChar, whose values at space, at
sign, colon and slash are exactly the claimed ones, and the two concrete
examples of the specification evaluate as claimed. -/
theorem claim_C7_encoding_fidelity :
    (∀ s : String, (phpUrlEncode s).data = s.data.flatMap phpEncodeChar)
    ∧ phpEncodeChar ' ' = ['+']
    ∧ phpEncodeChar '@' = ['%', '4', '0']
    ∧ phpEncodeChar ':' = ['%', '3', 'A']
    ∧ phpEncodeChar '/' = ['%', '2', 'F']
    ∧ phpUrlEncode "Test Item" = "Test+Item"
    ∧ phpUrlEncode "test@test.com" = "test%40test.com" :=
  ⟨phpUrlEncode_data, by decide, by decide, by decide, by decide,
   by decide, by decide⟩

/-- MD5 reference vectors of RFC 1321, checking the embedded digest against
the published values. -/
theorem md5_reference_vectors :
    md5HexOfString "" = "d41d8cd98f00b204e9800998ecf8427e"
    ∧ md5HexOfString "abc" = "900150983cd24fb0d6963f7d28e17f72" :=
  ⟨by decide, by decide⟩

/-- The worked example recorded in the repository documentation: the base
string for the documented sandbox fields and passphrase is exactly the
documented one, and its digest is the MD5 of that string. -/
theorem generateSignature_reference :
    getString
      [("merchant_id", "10000100"), ("merchant_key", "46f0cd694581a"),
       ("return_url", "http://localhost:3000/success"),
       ("cancel_url", "http://localhost:3000/cancel"),
       ("notify_url", "http://localhost:3000/api/notify"),
       ("name_first", "Test"), ("name_last", "User"),
       ("email_address", "test@test.com"), ("m_payment_id", "test-123"),
       ("amount", "100.00"), ("item_name", "Test Item")]
      "jt7NOE43FZPn" =
    "merchant_id=10000100&merchant_key=46f0cd694581a&return_url=http%3A%2F%2Flocalhost%3A3000%2Fsuccess&cancel_url=http%3A%2F%2Flocalhost%3A3000%2Fcancel&notify_url=http%3A%2F%2Flocalhost%3A3000%2Fapi%2Fnotify&name_first=Test&name_last=User&email_address=test%40test.com&m_payment_id=test-123&amount=100.00&item_name=Test+Item&passphrase=jt7NOE43FZPn"
    := by decide

end BF
